import Mathlib

/-!
Verification of the `Git` facade of the python-git repository
(src/atudomain/git/Git.py) against its specification.

The file is a shallow embedding: each Python function of Git.py is
translated into a Lean function.  The external world (the filesystem,
the `git` subprocess, Python's `re` module, and the two parser
collaborators that live outside the provided source excerpt) is
modelled by explicit parameters, so every definition is executable.
-/

/-- Errors that can be raised by the embedded code.  Each constructor
corresponds to one Python exception class observable at the `Git` facade:
`subprocess.CalledProcessError`, `NotADirectoryError`, `AttributeError`,
`TypeError`, `GitBinaryNotFoundError`, `NotARepositoryError`, `re.error`
and the parsers' `MalformedLogRecord`. -/
inductive PyError where
  | calledProcessError (returncode : Int) (stderr : String)
  | notADirectoryError (path : String)
  | attributeError (msg : String)
  | typeError (msg : String)
  | gitBinaryNotFoundError
  | notARepositoryError (directory : String)
  | reError (pattern : String)
  | malformedLogRecord (block : String)
  deriving DecidableEq, Repr

deriving instance DecidableEq for Except

/-- Result of `subprocess.run` with `capture_output=True` and
`universal_newlines=True`: an exit code and captured output texts. -/
structure CompletedProcess where
  returncode : Int
  stdout : String
  stderr : String
  deriving DecidableEq, Repr

/-- One invocation of the external `git` process: the argument token list
and the sanitized child environment passed to `subprocess.run`. -/
structure RunCall where
  tokens : List String
  env : List (String × String)
  deriving DecidableEq, Repr

/-- The attributes of a constructed `Git` object that `run`, `get_commits`
and `get_branches` read: `self._directory` and `self._binary_path_list`. -/
structure GitState where
  directory : String
  binary_path_list : List String
  deriving DecidableEq, Repr

/-- The external process, modelled as a function from the executed call
(tokens plus environment) to its completed result. -/
abbrev Runner : Type := RunCall → CompletedProcess

/-- Model of the filesystem queries used by `_build_binary_path_list`:
`os.path.isdir`, `os.path.isfile` and `shutil.which`. -/
structure FS where
  isdir : String → Bool
  isfile : String → Bool
  which : String → Option String

/-- Python `str.rstrip('/')`: remove trailing slash characters. -/
def rstripSlash (s : String) : String :=
  ⟨(s.data.reverse.dropWhile (fun c => c = '/')).reverse⟩

/-- Splitting a character list on runs of whitespace, accumulating the
current token in reverse. -/
def splitWSGo : List Char → List Char → List (List Char)
  | [], acc => if acc = [] then [] else [acc.reverse]
  | c :: cs, acc =>
    if Char.isWhitespace c then
      if acc = [] then splitWSGo cs [] else acc.reverse :: splitWSGo cs []
    else
      splitWSGo cs (c :: acc)

/-- Python `re.split(r'\s+', command.strip())` as used in `run`:
strip leading and trailing whitespace, then split on runs of whitespace.
On the empty string, `re.split` returns a single empty token. -/
def splitCommand (command : String) : List String :=
  let stripped :=
    ((command.data.dropWhile Char.isWhitespace).reverse.dropWhile Char.isWhitespace).reverse
  if stripped = [] then [""]
  else (splitWSGo stripped []).map (fun t => ⟨t⟩)

/-- Git.py `COMMON_BINARY_PATHS`. -/
def COMMON_BINARY_PATHS : List String := ["/bin", "/usr/bin"]

/-- The argument list handed to `subprocess.run` by `Git.run`:
`['git', '-C', self._directory]` followed by the split command. -/
def gitTokens (g : GitState) (command : String) : List String :=
  ["git", "-C", g.directory] ++ splitCommand command

/-- The child environment handed to `subprocess.run` by `Git.run`:
a dictionary holding only `PATH`, joined from the binary path list. -/
def gitEnv (g : GitState) : List (String × String) :=
  [("PATH", String.intercalate ":" g.binary_path_list)]

/-- Embedding of `Git.run` (Git.py lines 79–109).  Splits the command,
executes the external process once, and — when `check` is set and the
exit code is non-zero — re-raises `subprocess.CalledProcessError`
carrying the captured stderr (the `except` clause prints the stderr and
re-raises the error unchanged).  The second component is the list of
process invocations performed, in order. -/
def run (runner : Runner) (g : GitState) (command : String) (check : Bool) :
    Except PyError CompletedProcess × List RunCall :=
  let call : RunCall := ⟨gitTokens g command, gitEnv g⟩
  let result := runner call
  if check && result.returncode ≠ 0 then
    (.error (.calledProcessError result.returncode result.stderr), [call])
  else
    (.ok result, [call])

/-- Author or committer data of a commit record.  Modelled from the spec:
the `Commit` class is not part of the provided source excerpt; the spec
describes a structured triple of name, email and timestamp-with-offset. -/
structure Author where
  name : String
  email : String
  timestamp : Int
  tz : String
  deriving DecidableEq, Repr

/-- Commit record.  Modelled from the spec: the `Commit` class is not part
of the provided source excerpt; the spec lists hash, tree, parents,
author, committer and message fields.  The claims below never inspect the
fields — `get_commits` hands whole records through from the parser. -/
structure Commit where
  hash : String
  tree : String
  parents : List String
  author : Author
  committer : Author
  message : String
  deriving DecidableEq, Repr

/-- Embedding of `Git.get_commits` (Git.py lines 111–130).  Builds the
command `'log {revision_range} --pretty=raw'`, runs it with `check=True`,
and applies the log parser's `extract_commits` to the captured stdout.
The parser collaborator is a parameter (`GitLogParser` is outside the
provided source excerpt). -/
def get_commits (runner : Runner) (extract_commits : String → List Commit)
    (g : GitState) (revision_range : String) :
    Except PyError (List Commit) × List RunCall :=
  let (r, log) := run runner g ("log " ++ revision_range ++ " --pretty=raw") true
  match r with
  | .error e => (.error e, log)
  | .ok cp => (.ok (extract_commits cp.stdout), log)

/-- A compiled pattern of the regular-expression fragment actually used by
the facade: an optional start anchor `^`, an optional end anchor `$`, and a
body of literal characters. -/
structure RePattern where
  anchorStart : Bool
  anchorEnd : Bool
  body : List Char
  deriving DecidableEq, Repr

/-- Regular-expression metacharacters.  A pattern whose body contains one
of these is outside the modelled fragment and is treated as failing to
compile. -/
def reMeta : List Char :=
  ['.', '^', '$', '*', '+', '?', '\x7b', '\x7d', '[', ']', '(', ')', '|', '\\']

/-- Model of Python `re` pattern compilation, restricted to the fragment
of patterns built from literal characters with optional `^`/`$` anchors.
A pattern such as `"("` is invalid in Python (`re.error`); the model
conservatively reports `reError` for every pattern outside the literal
fragment. -/
def reCompile (pattern : String) : Except PyError RePattern :=
  let cs := pattern.toList
  let anchorStart := cs.head? = some '^'
  let cs1 := if anchorStart then cs.tail else cs
  let anchorEnd := cs1.getLast? = some '$'
  let body := if anchorEnd then cs1.dropLast else cs1
  if body.any (fun c => reMeta.contains c) then
    .error (.reError pattern)
  else
    .ok ⟨anchorStart, anchorEnd, body⟩

/-- Unanchored search with a compiled pattern, as performed by Python
`re.search`: the pattern may match anywhere in the string; `^` pins the
match to the start and `$` to the end.  (Strings containing newlines are
outside the modelled fragment.) -/
def reSearchPat (p : RePattern) (s : String) : Bool :=
  match p.anchorStart, p.anchorEnd with
  | true, true => p.body = s.toList
  | true, false => decide (p.body <+: s.toList)
  | false, true => decide (p.body <:+ s.toList)
  | false, false => decide (p.body <:+: s.toList)

/-- Model of Python `re.search(pattern, s)`: compiles the pattern (raising
`re.error` for invalid syntax) and searches unanchored. -/
def reSearch (pattern s : String) : Except PyError Bool :=
  match reCompile pattern with
  | .error e => .error e
  | .ok p => .ok (reSearchPat p s)

/-- The list comprehension `[x for x in branches if re.search(include, x)]`
(Git.py line 152): elements are tested left to right, and a pattern error
raised on the first tested element aborts the whole call. -/
def includeFilter (pattern : String) : List String → Except PyError (List String)
  | [] => .ok []
  | x :: xs =>
    match reSearch pattern x with
    | .error e => .error e
    | .ok b =>
      match includeFilter pattern xs with
      | .error e => .error e
      | .ok rest => .ok (if b then x :: rest else rest)

/-- The list comprehension `[x for x in branches if not re.search(exclude, x)]`
(Git.py line 154). -/
def excludeFilter (pattern : String) : List String → Except PyError (List String)
  | [] => .ok []
  | x :: xs =>
    match reSearch pattern x with
    | .error e => .error e
    | .ok b =>
      match excludeFilter pattern xs with
      | .error e => .error e
      | .ok rest => .ok (if b then rest else x :: rest)

/-- The two optional filtering steps of `get_branches` (Git.py lines
151–155): first the `include` filter when provided, then the `exclude`
filter when provided. -/
def branchFilters (inc exc : Option String) (branches : List String) :
    Except PyError (List String) :=
  match (match inc with
         | none => (.ok branches : Except PyError (List String))
         | some p => includeFilter p branches) with
  | .error e => .error e
  | .ok bs =>
    match exc with
    | none => .ok bs
    | some p => excludeFilter p bs

/-- Embedding of `Git.get_branches` (Git.py lines 132–155).  Runs
`'branch --all'` with `check=True`, applies the branch parser's
`extract_branches` to the captured stdout, then the two optional filters.
The parser collaborator is a parameter (`GitBranchParser` is outside the
provided source excerpt). -/
def get_branches (runner : Runner) (extract_branches : String → List String)
    (g : GitState) (inc exc : Option String) :
    Except PyError (List String) × List RunCall :=
  let (r, log) := run runner g "branch --all" true
  match r with
  | .error e => (.error e, log)
  | .ok cp => (branchFilters inc exc (extract_branches cp.stdout), log)

/-- Embedding of `Git._build_binary_path_list` (Git.py lines 43–66).
`self_binary_path_list` is the value of the attribute `self._binary_path_list`
at call time; `__init__` sets it to `None` immediately before the call.
When `binary_path` is non-empty and an existing directory, the source calls
`self._binary_path_list.insert(index=0, object=binary_path)`: on `None`
this raises `AttributeError`; on a list it would raise `TypeError`
(built-in `list.insert` accepts no keyword arguments).  Otherwise the
method scans `COMMON_BINARY_PATHS` for a `git` binary, falls back to
`shutil.which` (raising `GitBinaryNotFoundError` when absent, printing a
warning otherwise), and stores `COMMON_BINARY_PATHS`. -/
def build_binary_path_list (fs : FS) (self_binary_path_list : Option (List String))
    (binary_path : String) : Except PyError (List String) :=
  let binary_path_list := COMMON_BINARY_PATHS
  if binary_path ≠ "" then
    if ¬ fs.isdir binary_path then
      .error (.notADirectoryError binary_path)
    else
      match self_binary_path_list with
      | none => .error (.attributeError "NoneType object has no attribute insert")
      | some _ => .error (.typeError "insert takes no keyword arguments")
  else
    let binary_shell_independent :=
      binary_path_list.any (fun p => fs.isfile (rstripSlash p ++ "/git"))
    if ¬ binary_shell_independent ∧ (fs.which "git").isNone then
      .error .gitBinaryNotFoundError
    else
      .ok binary_path_list

/-- The directory string stored by `_build_directory` (Git.py lines 74–76):
trailing slashes are stripped unless the directory is exactly `"/"`. -/
def stored_directory (directory : String) : String :=
  if directory ≠ "/" then rstripSlash directory else directory

/-- Embedding of `Git._build_directory` (Git.py lines 68–77).  Strips
trailing slashes unless the directory is exactly `"/"`, stores the result,
then probes the directory with `run('rev-parse --git-dir', check=False)`
and raises `NotARepositoryError` on a non-zero exit code. -/
def build_directory (runner : Runner) (binary_path_list : List String)
    (directory : String) : Except PyError String × List RunCall :=
  let directory := stored_directory directory
  let g : GitState := ⟨directory, binary_path_list⟩
  let (r, log) := run runner g "rev-parse --git-dir" false
  match r with
  | .error e => (.error e, log)
  | .ok cp =>
    if cp.returncode ≠ 0 then
      (.error (.notARepositoryError directory), log)
    else
      (.ok directory, log)

/-- Embedding of `Git.__init__` (Git.py lines 27–41): sets
`self._binary_path_list = None`, calls `_build_binary_path_list`, then
sets `self._directory = None` and calls `_build_directory`.  The second
component is the list of external process invocations performed. -/
def Git_init (fs : FS) (runner : Runner) (directory : String)
    (binary_path : String) : Except PyError GitState × List RunCall :=
  match build_binary_path_list fs none binary_path with
  | .error e => (.error e, [])
  | .ok bpl =>
    match build_directory runner bpl directory with
    | (.error e, log) => (.error e, log)
    | (.ok dir, log) => (.ok ⟨dir, bpl⟩, log)

/-- `Git.get_commits` viewed as a method acting on `self`: the pair of its
return value (with the process-call log) and the state of `self` after the
call.  The method body (Git.py lines 111–130) contains no assignment to
any attribute of `self`, so the resulting state is the input state. -/
def get_commitsS (runner : Runner) (extract_commits : String → List Commit)
    (g : GitState) (revision_range : String) :
    (Except PyError (List Commit) × List RunCall) × GitState :=
  (get_commits runner extract_commits g revision_range, g)

/-- `Git.get_branches` viewed as a method acting on `self`: the pair of its
return value (with the process-call log) and the state of `self` after the
call.  The method body (Git.py lines 132–155) contains no assignment to
any attribute of `self`, so the resulting state is the input state. -/
def get_branchesS (runner : Runner) (extract_branches : String → List String)
    (g : GitState) (inc exc : Option String) :
    (Except PyError (List String) × List RunCall) × GitState :=
  (get_branches runner extract_branches g inc exc, g)

/-! ## General lemmas about the embedding -/

/-- A single call to `run` performs exactly one external process
invocation, with the documented token list and environment. -/
theorem run_log (runner : Runner) (g : GitState) (command : String) (check : Bool) :
    (run runner g command check).2 = [⟨gitTokens g command, gitEnv g⟩] := by
  simp only [run]
  split <;> rfl

/-- When the external process exits with code 0, `run` with `check=True`
returns its completed result. -/
theorem run_ok (runner : Runner) (g : GitState) (command : String)
    (h : (runner ⟨gitTokens g command, gitEnv g⟩).returncode = 0) :
    run runner g command true =
      (.ok (runner ⟨gitTokens g command, gitEnv g⟩), [⟨gitTokens g command, gitEnv g⟩]) := by
  unfold run
  simp [h]

/-- When the external process exits with a non-zero code, `run` with
`check=True` raises `CalledProcessError` carrying the captured stderr. -/
theorem run_nonzero (runner : Runner) (g : GitState) (command : String)
    (h : (runner ⟨gitTokens g command, gitEnv g⟩).returncode ≠ 0) :
    run runner g command true =
      (.error (.calledProcessError
          (runner ⟨gitTokens g command, gitEnv g⟩).returncode
          (runner ⟨gitTokens g command, gitEnv g⟩).stderr),
       [⟨gitTokens g command, gitEnv g⟩]) := by
  unfold run
  simp [h]

/-- On a successful branch-listing command, `get_branches` returns the
two filters applied to the parser's output. -/
theorem get_branches_ok (runner : Runner) (extract_branches : String → List String)
    (g : GitState) (inc exc : Option String)
    (h : (runner ⟨gitTokens g "branch --all", gitEnv g⟩).returncode = 0) :
    get_branches runner extract_branches g inc exc =
      (branchFilters inc exc
         (extract_branches (runner ⟨gitTokens g "branch --all", gitEnv g⟩).stdout),
       [⟨gitTokens g "branch --all", gitEnv g⟩]) := by
  unfold get_branches
  rw [run_ok runner g "branch --all" h]

/-! ## Claim theorems -/

/-- Claim C1: `get_branches` applies the two optional pattern filters in
order — first keep only names matching `include`, then drop names matching
`exclude` — so that on the parsed branch list
`["main", "feature/a", "feature/b", "hotfix/c"]`, calling with
`include="^feature/"` returns `["feature/a", "feature/b"]`, and
additionally passing `exclude="b$"` returns `["feature/a"]`. -/
theorem C1_filters_in_order (runner : Runner) (extract_branches : String → List String)
    (g : GitState)
    (h0 : (runner ⟨gitTokens g "branch --all", gitEnv g⟩).returncode = 0)
    (h1 : extract_branches (runner ⟨gitTokens g "branch --all", gitEnv g⟩).stdout
            = ["main", "feature/a", "feature/b", "hotfix/c"]) :
    (get_branches runner extract_branches g (some "^feature/") none).1
        = .ok ["feature/a", "feature/b"] ∧
    (get_branches runner extract_branches g (some "^feature/") (some "b$")).1
        = .ok ["feature/a"] := by
  have e1 := get_branches_ok runner extract_branches g (some "^feature/") none h0
  have e2 := get_branches_ok runner extract_branches g (some "^feature/") (some "b$") h0
  rw [h1] at e1 e2
  rw [e1, e2]
  refine ⟨?_, ?_⟩
  · show branchFilters (some "^feature/") none
        ["main", "feature/a", "feature/b", "hotfix/c"] = .ok ["feature/a", "feature/b"]
    decide
  · show branchFilters (some "^feature/") (some "b$")
        ["main", "feature/a", "feature/b", "hotfix/c"] = .ok ["feature/a"]
    decide

/-- Witness for C1 at a concrete runner, parser output and state. -/
theorem C1_filters_in_order_witness :
    (get_branches (fun _ => ⟨0, "", ""⟩)
        (fun _ => ["main", "feature/a", "feature/b", "hotfix/c"])
        ⟨"/repo", COMMON_BINARY_PATHS⟩ (some "^feature/") none).1
        = .ok ["feature/a", "feature/b"] ∧
    (get_branches (fun _ => ⟨0, "", ""⟩)
        (fun _ => ["main", "feature/a", "feature/b", "hotfix/c"])
        ⟨"/repo", COMMON_BINARY_PATHS⟩ (some "^feature/") (some "b$")).1
        = .ok ["feature/a"] :=
  C1_filters_in_order (fun _ => ⟨0, "", ""⟩)
    (fun _ => ["main", "feature/a", "feature/b", "hotfix/c"])
    ⟨"/repo", COMMON_BINARY_PATHS⟩ rfl rfl

/-- Claim C2: for every revision range string, `get_commits` builds the
log command containing that range expression (embedded in
`'log {revision_range} --pretty=raw'`), executes it once via the external
runner, and on success returns exactly `extract_commits` applied to the
captured standard output. -/
theorem C2_commits_from_parse (runner : Runner) (extract_commits : String → List Commit)
    (g : GitState) (revision_range : String)
    (h : (runner ⟨gitTokens g ("log " ++ revision_range ++ " --pretty=raw"),
            gitEnv g⟩).returncode = 0) :
    get_commits runner extract_commits g revision_range =
      (.ok (extract_commits
          (runner ⟨gitTokens g ("log " ++ revision_range ++ " --pretty=raw"),
             gitEnv g⟩).stdout),
       [⟨gitTokens g ("log " ++ revision_range ++ " --pretty=raw"), gitEnv g⟩]) := by
  unfold get_commits
  rw [run_ok runner g ("log " ++ revision_range ++ " --pretty=raw") h]

/-- Witness for C2 at a concrete runner, parser and revision range. -/
theorem C2_commits_from_parse_witness :
    get_commits (fun _ => ⟨0, "raw log text", ""⟩) (fun _ => [])
        ⟨"/repo", COMMON_BINARY_PATHS⟩ "v1..v2" =
      (.ok [],
       [⟨gitTokens ⟨"/repo", COMMON_BINARY_PATHS⟩ "log v1..v2 --pretty=raw",
         gitEnv ⟨"/repo", COMMON_BINARY_PATHS⟩⟩]) :=
  C2_commits_from_parse (fun _ => ⟨0, "raw log text", ""⟩) (fun _ => [])
    ⟨"/repo", COMMON_BINARY_PATHS⟩ "v1..v2" rfl

/-- Claim C3: whenever the external command reports a non-zero exit code,
`get_commits` propagates the execution failure unchanged (carrying the
captured stderr text), performs exactly one execution attempt, and returns
no commit records. -/
theorem C3_nonzero_exit_propagates (runner : Runner)
    (extract_commits : String → List Commit) (g : GitState) (revision_range : String)
    (h : (runner ⟨gitTokens g ("log " ++ revision_range ++ " --pretty=raw"),
            gitEnv g⟩).returncode ≠ 0) :
    get_commits runner extract_commits g revision_range =
      (.error (.calledProcessError
          (runner ⟨gitTokens g ("log " ++ revision_range ++ " --pretty=raw"),
             gitEnv g⟩).returncode
          (runner ⟨gitTokens g ("log " ++ revision_range ++ " --pretty=raw"),
             gitEnv g⟩).stderr),
       [⟨gitTokens g ("log " ++ revision_range ++ " --pretty=raw"), gitEnv g⟩]) := by
  unfold get_commits
  rw [run_nonzero runner g ("log " ++ revision_range ++ " --pretty=raw") h]

/-- Witness for C3 at a concrete failing runner. -/
theorem C3_nonzero_exit_propagates_witness :
    get_commits (fun _ => ⟨128, "", "fatal: bad revision"⟩) (fun _ => [])
        ⟨"/repo", COMMON_BINARY_PATHS⟩ "oops..range" =
      (.error (.calledProcessError 128 "fatal: bad revision"),
       [⟨gitTokens ⟨"/repo", COMMON_BINARY_PATHS⟩ "log oops..range --pretty=raw",
         gitEnv ⟨"/repo", COMMON_BINARY_PATHS⟩⟩]) :=
  C3_nonzero_exit_propagates (fun _ => ⟨128, "", "fatal: bad revision"⟩) (fun _ => [])
    ⟨"/repo", COMMON_BINARY_PATHS⟩ "oops..range" (by decide)

/-- `re.search` under a pattern that compiles: search with the compiled
pattern, no error. -/
theorem reSearch_eq_of_compile (p : String) (pat : RePattern)
    (hc : reCompile p = .ok pat) (x : String) :
    reSearch p x = .ok (reSearchPat pat x) := by
  unfold reSearch
  rw [hc]

/-- Under a pattern that compiles, the `include` comprehension is exactly
`List.filter` with the compiled search. -/
theorem includeFilter_eq_filter (p : String) (pat : RePattern)
    (hc : reCompile p = .ok pat) (bs : List String) :
    includeFilter p bs = .ok (bs.filter (fun x => reSearchPat pat x)) := by
  induction bs with
  | nil => rfl
  | cons x xs ih =>
    unfold includeFilter
    rw [reSearch_eq_of_compile p pat hc x, ih, List.filter_cons]

/-- Under a pattern that compiles, the `exclude` comprehension is exactly
`List.filter` with the negated compiled search. -/
theorem excludeFilter_eq_filter (p : String) (pat : RePattern)
    (hc : reCompile p = .ok pat) (bs : List String) :
    excludeFilter p bs = .ok (bs.filter (fun x => ! reSearchPat pat x)) := by
  induction bs with
  | nil => rfl
  | cons x xs ih =>
    unfold excludeFilter
    rw [reSearch_eq_of_compile p pat hc x, ih, List.filter_cons]
    by_cases hb : reSearchPat pat x <;> simp [hb]

/-- Claim C4: `include=None` performs no inclusion filtering — with both
filters absent the parsed list is returned unchanged — and a provided
pattern keeps a name iff the pattern matches anywhere in the name
(unanchored search, applied independently per name): for an unanchored
compiled pattern the search succeeds exactly when the pattern body occurs
as an infix of the name. -/
theorem C4_include_none_unanchored (branches : List String) (p : String)
    (pat : RePattern) (x : String)
    (hc : reCompile p = .ok pat)
    (hs : pat.anchorStart = false) (he : pat.anchorEnd = false) :
    branchFilters none none branches = .ok branches ∧
    branchFilters (some p) none branches
      = .ok (branches.filter (fun y => reSearchPat pat y)) ∧
    (reSearchPat pat x = true ↔ pat.body <:+: x.toList) := by
  refine ⟨rfl, ?_, ?_⟩
  · simp only [branchFilters]
    rw [includeFilter_eq_filter p pat hc branches]
  · unfold reSearchPat
    rw [hs, he]
    simp

/-- Witness for C4 at a concrete unanchored pattern and branch list. -/
theorem C4_include_none_unanchored_witness :
    branchFilters none none ["main", "feature/a"] = .ok ["main", "feature/a"] ∧
    branchFilters (some "eat") none ["main", "feature/a"]
      = .ok (["main", "feature/a"].filter
          (fun y => reSearchPat ⟨false, false, ['e', 'a', 't']⟩ y)) ∧
    (reSearchPat ⟨false, false, ['e', 'a', 't']⟩ "feature/a" = true ↔
      ['e', 'a', 't'] <:+: "feature/a".toList) :=
  C4_include_none_unanchored ["main", "feature/a"] "eat"
    ⟨false, false, ['e', 'a', 't']⟩ "feature/a" (by decide) rfl rfl

/-- The `include` comprehension never invents elements: a successful
result is a sublist of its input. -/
theorem includeFilter_sublist (p : String) (bs : List String) :
    ∀ out, includeFilter p bs = .ok out → out.Sublist bs := by
  induction bs with
  | nil =>
    intro out h
    injection h with h
    subst h
    exact List.Sublist.refl []
  | cons x xs ih =>
    intro out h
    unfold includeFilter at h
    revert h
    cases ha : reSearch p x with
    | error e => intro h; cases h
    | ok b =>
      cases hrest : includeFilter p xs with
      | error e => intro h; cases h
      | ok rest =>
        intro h
        have h2 : Except.ok (if b = true then x :: rest else rest)
            = (Except.ok out : Except PyError (List String)) := h
        injection h2 with h2
        subst h2
        cases b
        · simpa using List.Sublist.cons x (ih rest hrest)
        · simpa using List.Sublist.cons₂ x (ih rest hrest)

/-- The `exclude` comprehension never invents elements: a successful
result is a sublist of its input. -/
theorem excludeFilter_sublist (p : String) (bs : List String) :
    ∀ out, excludeFilter p bs = .ok out → out.Sublist bs := by
  induction bs with
  | nil =>
    intro out h
    injection h with h
    subst h
    exact List.Sublist.refl []
  | cons x xs ih =>
    intro out h
    unfold excludeFilter at h
    revert h
    cases ha : reSearch p x with
    | error e => intro h; cases h
    | ok b =>
      cases hrest : excludeFilter p xs with
      | error e => intro h; cases h
      | ok rest =>
        intro h
        have h2 : Except.ok (if b = true then rest else x :: rest)
            = (Except.ok out : Except PyError (List String)) := h
        injection h2 with h2
        subst h2
        cases b
        · simpa using List.Sublist.cons₂ x (ih rest hrest)
        · simpa using List.Sublist.cons x (ih rest hrest)

/-- The optional `include` step never invents elements. -/
theorem includeStep_sublist (inc : Option String) (branches bs : List String)
    (h : (match inc with
          | none => (.ok branches : Except PyError (List String))
          | some p => includeFilter p branches) = .ok bs) :
    bs.Sublist branches := by
  cases inc with
  | none =>
    injection h with h
    subst h
    exact List.Sublist.refl _
  | some p => exact includeFilter_sublist p branches bs h

/-- Claim C5: for every branch list and every combination of
include/exclude patterns, a successful `get_branches` filtering result is
a sublist (subsequence) of the parser's output: it never adds names,
never duplicates names, and preserves relative order. -/
theorem C5_filter_sublist (inc exc : Option String) (branches out : List String)
    (h : branchFilters inc exc branches = .ok out) : out.Sublist branches := by
  unfold branchFilters at h
  split at h
  · cases h
  · rename_i bs hbs
    have h1 : bs.Sublist branches := includeStep_sublist inc branches bs hbs
    split at h
    · injection h with h
      subst h
      exact h1
    · rename_i p
      exact (excludeFilter_sublist p bs out h).trans h1

/-- Witness for C5 at concrete patterns and branch list. -/
theorem C5_filter_sublist_witness :
    List.Sublist ["feature/a"] ["main", "feature/a", "feature/b", "hotfix/c"] :=
  C5_filter_sublist (some "feature") (some "b") ["main", "feature/a", "feature/b", "hotfix/c"]
    ["feature/a"] (by decide)

/-- On a non-empty list, the `include` comprehension propagates a pattern
compilation error raised while testing the first element. -/
theorem includeFilter_error (p : String) (e : PyError)
    (hc : reCompile p = .error e) (x : String) (xs : List String) :
    includeFilter p (x :: xs) = .error e := by
  unfold includeFilter reSearch
  rw [hc]

/-- On a non-empty list, the `exclude` comprehension propagates a pattern
compilation error raised while testing the first element. -/
theorem excludeFilter_error (p : String) (e : PyError)
    (hc : reCompile p = .error e) (x : String) (xs : List String) :
    excludeFilter p (x :: xs) = .error e := by
  unfold excludeFilter reSearch
  rw [hc]

/-- Claim C6, counterexample: the pattern `"("` is invalid, yet when the
parsed branch list is empty the comprehension never evaluates
`re.search`, so `get_branches` succeeds with `[]` instead of failing with
a pattern-compilation error. -/
theorem C6_counterexample :
    reCompile "(" = .error (.reError "(") ∧
    (get_branches (fun _ => ⟨0, "", ""⟩) (fun _ => [])
        ⟨"/repo", COMMON_BINARY_PATHS⟩ (some "(") none).1 = .ok [] :=
  ⟨by decide, by decide⟩

/-- Claim C6 as amended: when an invalid `include` or `exclude` pattern is
given and at least one parsed branch name reaches that filter, the call
fails with the pattern-compilation error `reError`, an error kind distinct
from `malformedLogRecord` parse errors and from `calledProcessError`
execution failures. -/
theorem C6_pattern_error_distinct (runner : Runner)
    (extract_branches : String → List String) (g : GitState)
    (p x : String) (xs : List String) (rc : Int) (serr blk : String)
    (h0 : (runner ⟨gitTokens g "branch --all", gitEnv g⟩).returncode = 0)
    (h1 : extract_branches (runner ⟨gitTokens g "branch --all", gitEnv g⟩).stdout = x :: xs)
    (h2 : reCompile p = .error (.reError p)) :
    (get_branches runner extract_branches g (some p) none).1 = .error (.reError p) ∧
    (get_branches runner extract_branches g none (some p)).1 = .error (.reError p) ∧
    PyError.reError p ≠ .calledProcessError rc serr ∧
    PyError.reError p ≠ .malformedLogRecord blk := by
  have e1 := get_branches_ok runner extract_branches g (some p) none h0
  have e2 := get_branches_ok runner extract_branches g none (some p) h0
  rw [h1] at e1 e2
  rw [e1, e2]
  have d1 : PyError.reError p ≠ .calledProcessError rc serr := by intro hcon; cases hcon
  have d2 : PyError.reError p ≠ .malformedLogRecord blk := by intro hcon; cases hcon
  refine ⟨?_, ?_, d1, d2⟩
  · show branchFilters (some p) none (x :: xs) = .error (.reError p)
    simp only [branchFilters]
    rw [includeFilter_error p _ h2 x xs]
  · show branchFilters none (some p) (x :: xs) = .error (.reError p)
    simp only [branchFilters]
    rw [excludeFilter_error p _ h2 x xs]

/-- Witness for the amended C6 at the concrete invalid pattern `"("`. -/
theorem C6_pattern_error_distinct_witness :
    (get_branches (fun _ => ⟨0, "", ""⟩) (fun _ => ["main"])
        ⟨"/repo", COMMON_BINARY_PATHS⟩ (some "(") none).1 = .error (.reError "(") ∧
    (get_branches (fun _ => ⟨0, "", ""⟩) (fun _ => ["main"])
        ⟨"/repo", COMMON_BINARY_PATHS⟩ none (some "(")).1 = .error (.reError "(") ∧
    PyError.reError "(" ≠ .calledProcessError 128 "fatal" ∧
    PyError.reError "(" ≠ .malformedLogRecord "commit deadbeef" :=
  C6_pattern_error_distinct (fun _ => ⟨0, "", ""⟩) (fun _ => ["main"])
    ⟨"/repo", COMMON_BINARY_PATHS⟩ "(" "main" [] 128 "fatal" "commit deadbeef"
    rfl rfl (by decide)

/-- Claim C7: the facade holds no cache and the observable state
(directory, binary path list) is unchanged by `get_commits` and
`get_branches`; with a fixed runner and fixed arguments, a second call on
the state left by the first returns the same result as the first. -/
theorem C7_no_cache_state_unchanged (runner : Runner)
    (extract_commits : String → List Commit) (extract_branches : String → List String)
    (g : GitState) (revision_range : String) (inc exc : Option String) :
    (get_commitsS runner extract_commits g revision_range).2 = g ∧
    (get_branchesS runner extract_branches g inc exc).2 = g ∧
    (get_commitsS runner extract_commits
        ((get_commitsS runner extract_commits g revision_range).2) revision_range).1
      = (get_commitsS runner extract_commits g revision_range).1 ∧
    (get_branchesS runner extract_branches
        ((get_branchesS runner extract_branches g inc exc).2) inc exc).1
      = (get_branchesS runner extract_branches g inc exc).1 :=
  ⟨rfl, rfl, rfl, rfl⟩

/-- Claim C8: for every non-empty `binary_path` naming an existing
directory, constructing `Git(directory, binary_path)` raises an exception
before any external command runs: `_build_binary_path_list` invokes
`insert` on `self._binary_path_list` while that attribute is still `None`,
so the custom-binary-path feature is unusable for any valid input. -/
theorem C8_custom_binary_path_crashes (fs : FS) (runner : Runner)
    (directory binary_path : String)
    (h1 : binary_path ≠ "") (h2 : fs.isdir binary_path = true) :
    Git_init fs runner directory binary_path =
      (.error (.attributeError "NoneType object has no attribute insert"), []) := by
  unfold Git_init build_binary_path_list
  simp [h1, h2]

/-- Witness for C8 at a concrete existing directory. -/
theorem C8_custom_binary_path_crashes_witness :
    Git_init ⟨fun _ => true, fun _ => true, fun _ => none⟩ (fun _ => ⟨0, "", ""⟩)
        "/repo" "/opt/git" =
      (.error (.attributeError "NoneType object has no attribute insert"), []) :=
  C8_custom_binary_path_crashes ⟨fun _ => true, fun _ => true, fun _ => none⟩
    (fun _ => ⟨0, "", ""⟩) "/repo" "/opt/git" (by decide) rfl

/-- On success, `_build_binary_path_list` always stores the unmodified
`COMMON_BINARY_PATHS` (the insertion of a custom path never succeeds). -/
theorem build_binary_path_list_ok (fs : FS) (self_bpl : Option (List String))
    (binary_path : String) (l : List String)
    (h : build_binary_path_list fs self_bpl binary_path = .ok l) :
    l = COMMON_BINARY_PATHS := by
  unfold build_binary_path_list at h
  dsimp only at h
  split at h
  · split at h
    · cases h
    · split at h
      · cases h
      · cases h
  · split at h
    · cases h
    · injection h with h
      exact h.symm

/-- A successfully constructed `Git` instance always carries
`COMMON_BINARY_PATHS` as its binary path list. -/
theorem Git_init_ok_bpl (fs : FS) (runner : Runner) (directory binary_path : String)
    (g0 : GitState) (log : List RunCall)
    (h : Git_init fs runner directory binary_path = (.ok g0, log)) :
    g0.binary_path_list = COMMON_BINARY_PATHS := by
  unfold Git_init at h
  revert h
  cases hb : build_binary_path_list fs none binary_path with
  | error e => intro h; cases h
  | ok bpl =>
    intro h
    have h' : (match build_directory runner bpl directory with
        | (.error e, log2) => ((.error e, log2) : Except PyError GitState × List RunCall)
        | (.ok d, log2) => (.ok ⟨d, bpl⟩, log2)) = (.ok g0, log) := h
    cases hd : build_directory runner bpl directory with
    | mk r log2 =>
      rw [hd] at h'
      cases r with
      | error e => simp at h'
      | ok d =>
        have h3 : (Except.ok (⟨d, bpl⟩ : GitState) : Except PyError GitState)
            = .ok g0 := congrArg Prod.fst h'
        injection h3 with h3
        rw [← h3]
        exact build_binary_path_list_ok fs none binary_path bpl hb

/-- Claim C9: every external command executed through `run` on a
successfully constructed instance uses a sanitized child environment
containing only `PATH` set to the joined binary path list
(`"/bin:/usr/bin"`), and the executed token list is always
`['git', '-C', directory]` followed by the whitespace-split command. -/
theorem C9_sanitized_env_and_tokens (fs : FS) (runner : Runner)
    (directory binary_path command : String) (check : Bool)
    (g0 : GitState) (log : List RunCall)
    (h : Git_init fs runner directory binary_path = (.ok g0, log)) :
    (run runner g0 command check).2 =
      [⟨["git", "-C", g0.directory] ++ splitCommand command,
        [("PATH", "/bin:/usr/bin")]⟩] := by
  have hb := Git_init_ok_bpl fs runner directory binary_path g0 log h
  rw [run_log]
  unfold gitTokens gitEnv
  rw [hb]
  rfl

/-- Witness for C9: a concrete constructed instance and command. -/
theorem C9_sanitized_env_and_tokens_witness :
    (run (fun _ => ⟨0, "", ""⟩) ⟨"/repo", COMMON_BINARY_PATHS⟩ "branch --all" true).2 =
      [⟨["git", "-C", "/repo"] ++ splitCommand "branch --all",
        [("PATH", "/bin:/usr/bin")]⟩] :=
  C9_sanitized_env_and_tokens ⟨fun _ => false, fun _ => true, fun _ => none⟩
    (fun _ => ⟨0, "", ""⟩) "/repo" "" "branch --all" true
    ⟨"/repo", COMMON_BINARY_PATHS⟩
    [⟨["git", "-C", "/repo", "rev-parse", "--git-dir"], [("PATH", "/bin:/usr/bin")]⟩]
    (by decide)

/-- Full characterization of `_build_directory`: it strips trailing
slashes (keeping the root path `"/"`), probes with
`rev-parse --git-dir`, and fails with `NotARepositoryError` exactly on a
non-zero exit code. -/
theorem build_directory_eq (runner : Runner) (bpl : List String) (dir : String) :
    build_directory runner bpl dir =
      (if (runner ⟨gitTokens ⟨stored_directory dir, bpl⟩ "rev-parse --git-dir",
              gitEnv ⟨stored_directory dir, bpl⟩⟩).returncode ≠ 0 then
         .error (.notARepositoryError (stored_directory dir))
       else .ok (stored_directory dir),
       [⟨gitTokens ⟨stored_directory dir, bpl⟩ "rev-parse --git-dir",
         gitEnv ⟨stored_directory dir, bpl⟩⟩]) := by
  by_cases hc : (runner ⟨gitTokens ⟨stored_directory dir, bpl⟩ "rev-parse --git-dir",
      gitEnv ⟨stored_directory dir, bpl⟩⟩).returncode = 0
  · simp [build_directory, run, hc]
  · simp [build_directory, run, hc]

/-- Claim C10: constructing `Git` (with the default empty `binary_path`)
on a directory where `rev-parse --git-dir` exits non-zero raises
`NotARepositoryError`, and every successfully constructed instance stores
the input directory with trailing slashes stripped, except the root path
`"/"` which is kept as-is (`stored_directory`). -/
theorem C10_repository_check (fs : FS) (runner : Runner) (dir : String)
    (hb : build_binary_path_list fs none "" = .ok COMMON_BINARY_PATHS) :
    Git_init fs runner dir "" =
      (if (runner ⟨gitTokens ⟨stored_directory dir, COMMON_BINARY_PATHS⟩ "rev-parse --git-dir",
              gitEnv ⟨stored_directory dir, COMMON_BINARY_PATHS⟩⟩).returncode ≠ 0 then
         .error (.notARepositoryError (stored_directory dir))
       else .ok ⟨stored_directory dir, COMMON_BINARY_PATHS⟩,
       [⟨gitTokens ⟨stored_directory dir, COMMON_BINARY_PATHS⟩ "rev-parse --git-dir",
         gitEnv ⟨stored_directory dir, COMMON_BINARY_PATHS⟩⟩]) := by
  have step : Git_init fs runner dir "" =
      (match build_directory runner COMMON_BINARY_PATHS dir with
       | (.error e, log2) => ((.error e, log2) : Except PyError GitState × List RunCall)
       | (.ok d, log2) => (.ok ⟨d, COMMON_BINARY_PATHS⟩, log2)) := by
    unfold Git_init
    rw [hb]
  rw [step, build_directory_eq]
  by_cases hc : (runner ⟨gitTokens ⟨stored_directory dir, COMMON_BINARY_PATHS⟩
      "rev-parse --git-dir",
      gitEnv ⟨stored_directory dir, COMMON_BINARY_PATHS⟩⟩).returncode = 0
  · simp [hc]
  · simp [hc]

/-- Witness for C10: a directory with a trailing slash, a runner whose
repository check succeeds, and the stripped stored directory. -/
theorem C10_repository_check_witness :
    Git_init ⟨fun _ => false, fun _ => true, fun _ => none⟩ (fun _ => ⟨0, "", ""⟩)
        "/repo/" "" =
      (.ok ⟨"/repo", COMMON_BINARY_PATHS⟩,
       [⟨["git", "-C", "/repo", "rev-parse", "--git-dir"],
         [("PATH", "/bin:/usr/bin")]⟩]) := by
  rw [C10_repository_check ⟨fun _ => false, fun _ => true, fun _ => none⟩
    (fun _ => ⟨0, "", ""⟩) "/repo/" (by decide)]
  decide
